import Mathlib

/-!
A shallow embedding of `dictionary_definition.py` (the Apple-dictionary
container reader and the markup grammar parser), together with theorems
settling the specification claims about it.

Modelling conventions:
* A BeautifulSoup parse tree is embedded as `Node`: either a text node
  (`NavigableString`) or an element (`Tag`) with a tag name, an optional
  `class` attribute (absent attribute is `none`, matching the `KeyError`
  raised by `tag["class"]` when missing), other attributes, and ordered
  children.
* Python exceptions are embedded as the `PyErr` type.  The source's
  `InvalidParseAssumptionError` is `PyErr.parseAssumption`; the other
  constructors stand for the built-in Python exception of the same name
  that the line of code in question would raise.
* Fallible code returns `Except PyErr`.
* `str.strip()` is embedded as `String.pyStrip`, a structural
  whitespace trim over the character list (the inputs appearing in the
  development only involve ASCII whitespace, where the two agree).
* `int(...)` is embedded as `pyInt` for decimal literals with optional
  sign and surrounding whitespace.
* Machine integers read from the container are 4-byte signed values,
  decoded little-endian (the byte order of the platforms `struct`'s
  native `"i"` format runs on here) into `Int` via an explicit
  two's-complement adjustment.
-/

/-- Embedded Python exceptions.  `parseAssumption` is the source's own
`InvalidParseAssumptionError`; the remaining constructors model Python
built-in exceptions raised by the corresponding source lines. -/
inductive PyErr where
  | parseAssumption (msg : String)
  | nameErr (msg : String)
  | attrErr (msg : String)
  | typeErr (msg : String)
  | keyErr (msg : String)
  | valueErr (msg : String)
  | structErr (msg : String)
deriving DecidableEq, Repr

/-- `true` exactly when a computation failed with the source's
`InvalidParseAssumptionError`. -/
def isParseViolation {α : Type} : Except PyErr α → Bool
  | .error (.parseAssumption _) => true
  | _ => false

/-- A BeautifulSoup node: a `NavigableString` or a `Tag` with tag name,
optional multi-valued `class` attribute, remaining attributes, and
ordered children. -/
inductive Node where
  | text (s : String)
  | elem (tag : String) (classes : Option (List String)) (attrs : List (String × String)) (children : List Node)

/-- Direct children of a node (`Tag.children`; text nodes have none). -/
def Node.childNodes : Node → List Node
  | .text _ => []
  | .elem _ _ _ cs => cs

mutual
/-- `get_text()`: concatenation of all descendant strings, no separator. -/
def Node.getText : Node → String
  | .text s => s
  | .elem _ _ _ cs => getTextList cs

def getTextList : List Node → String
  | [] => ""
  | c :: cs => c.getText ++ getTextList cs
end

mutual
/-- `find_all(p, recursive=True)`: all strict descendants satisfying `p`,
in document (pre-)order. -/
def Node.findAll (p : Node → Bool) : Node → List Node
  | .text _ => []
  | .elem _ _ _ cs => findAllList p cs

def findAllList (p : Node → Bool) : List Node → List Node
  | [] => []
  | c :: cs => (if p c then [c] else []) ++ Node.findAll p c ++ findAllList p cs
end

mutual
/-- bs4 structural equality (`Tag.__eq__` compares name, attributes and
contents recursively; `NavigableString.__eq__` is string equality). -/
def Node.beq : Node → Node → Bool
  | .text s, .text t => s == t
  | .elem t1 c1 a1 ch1, .elem t2 c2 a2 ch2 =>
      t1 == t2 && c1 == c2 && a1 == a2 && beqList ch1 ch2
  | _, _ => false

def beqList : List Node → List Node → Bool
  | [], [] => true
  | a :: as, b :: bs => Node.beq a b && beqList as bs
  | _, _ => false
end

/-- The `bs.find_all("span", class_=cl)` filter: a `span` tag whose
`class` attribute is present and contains `cl`. -/
def isSpanClass (cl : String) : Node → Bool
  | .elem tag (some cs) _ _ => tag = "span" && cs.contains cl
  | _ => false

/-- The `bs.find_all(t)` filter by tag name only. -/
def isTag (t : String) : Node → Bool
  | .elem tag _ _ _ => tag = t
  | _ => false

/-- `find_all` with an explicit `recursive` flag, as the query helpers
forward it to BeautifulSoup. -/
def pyFindAll (n : Node) (p : Node → Bool) (recursive : Bool) : List Node :=
  if recursive then n.findAll p else n.childNodes.filter p

/-- `tag["class"]`: the class list, `KeyError` when the attribute is
absent, `TypeError` on a `NavigableString` (string indexing). -/
def Node.classAttr : Node → Except PyErr (List String)
  | .text _ => .error (.typeErr "string indices must be integers")
  | .elem _ none _ _ => .error (.keyErr "class")
  | .elem _ (some cs) _ _ => .ok cs

/-- `tag[a]` for a single-valued attribute `a`. -/
def Node.getAttr (a : String) : Node → Except PyErr String
  | .text _ => .error (.typeErr "string indices must be integers")
  | .elem _ _ attrs _ =>
      match attrs.lookup a with
      | some v => .ok v
      | none => .error (.keyErr a)

/-- `find_at_most_one`: empty result (Python: the falsy empty result set)
on zero matches, the match on one, `InvalidParseAssumptionError` on more. -/
def find_at_most_one (n : Node) (p : Node → Bool) (recursive : Bool) :
    Except PyErr (Option Node) :=
  match pyFindAll n p recursive with
  | [] => .ok none
  | [x] => .ok (some x)
  | _ => .error (.parseAssumption "Too many found!")

/-- `find_exactly_one`: `InvalidParseAssumptionError` unless exactly one
match. -/
def find_exactly_one (n : Node) (p : Node → Bool) (recursive : Bool) :
    Except PyErr Node :=
  match pyFindAll n p recursive with
  | [] => .error (.parseAssumption "Not enough tags found!")
  | [x] => .ok x
  | _ => .error (.parseAssumption "Too many found!")

/-- `find_at_least_one`: on zero matches the source executes
`raise InvalidParseAssumption("Not enough tags found!")`, but the name
`InvalidParseAssumption` is never defined anywhere in the repository
(the defined class is `InvalidParseAssumptionError`), so Python raises
`NameError` while evaluating the `raise` statement; otherwise all
matches are returned in document order. -/
def find_at_least_one (n : Node) (p : Node → Bool) (recursive : Bool) :
    Except PyErr (List Node) :=
  match pyFindAll n p recursive with
  | [] => .error (.nameErr "name InvalidParseAssumption is not defined")
  | l => .ok l

/-- Python `s.strip()`: remove leading and trailing whitespace.
(Defined structurally over the character list so that it evaluates
inside the kernel.) -/
def String.pyStrip (s : String) : String :=
  String.mk (((s.toList.dropWhile Char.isWhitespace).reverse.dropWhile Char.isWhitespace).reverse)

/-- Python `s.strip(":")`: remove all leading and trailing colon
characters (note: not merely one trailing colon). -/
def pyStripColon (s : String) : String :=
  String.mk (((s.toList.dropWhile (· = ':')).reverse.dropWhile (· = ':')).reverse)

/-- The cleanup the source applies to each example span's text:
`e.get_text().strip().strip(":").strip()`. -/
def exampleClean (s : String) : String :=
  (pyStripColon s.pyStrip).pyStrip

/-- Numeric value of a digit list (most significant first). -/
def digitsVal (ds : List Char) : Nat :=
  ds.foldl (fun acc c => 10 * acc + (c.toNat - 48)) 0

/-- Python `int(s)` on decimal literals: surrounding whitespace ignored,
optional sign, at least one digit; otherwise `ValueError`. -/
def pyInt (s : String) : Except PyErr Int :=
  let core : List Char → Except PyErr Int := fun ds =>
    if ds ≠ [] ∧ ds.all Char.isDigit then .ok (digitsVal ds : Nat)
    else .error (.valueErr "invalid literal for int")
  match s.pyStrip.toList with
  | '-' :: ds => (fun v => -v) <$> core ds
  | '+' :: ds => core ds
  | ds => core ds

/-- `Pronounciation` dataclass (source spelling kept). -/
structure Pronounciation where
  text : String
  type : String
deriving DecidableEq, Repr

/-- `Definition` dataclass. -/
structure Definition where
  pos_modifier : Option String
  definition : String
  examples : List String
  topic : Option String
  date : Option String
deriving DecidableEq, Repr

/-- `ReferenceDefinition` dataclass. -/
structure ReferenceDefinition where
  pos_modifier : Option String
  reference : String
deriving DecidableEq, Repr

/-- One element of the heterogeneous list built by
`parse_sense_definitions` (Python appends both dataclasses to one list). -/
inductive DefItem where
  | definition (d : Definition)
  | reference (r : ReferenceDefinition)
deriving DecidableEq, Repr

/-- The value bound to `sense_definitions` in `parse_sense`: the branch
with nested `se2` groups appends whole lists (`list.append`, not
`extend`), producing a list of lists, while the other branch produces a
flat list. -/
inductive SenseDefs where
  | flat (items : List DefItem)
  | nested (groups : List (List DefItem))
deriving DecidableEq, Repr

/-- Python truthiness of `sense_definitions` (`if not sense_definitions`). -/
def SenseDefs.isEmptyList : SenseDefs → Bool
  | .flat l => l.isEmpty
  | .nested l => l.isEmpty

/-- `Sense` dataclass. -/
structure Sense where
  pos : Option String
  definitions : SenseDefs
deriving DecidableEq, Repr

/-- `Entry` dataclass.  `pronounciations` is `Option` because
`parse_pronounciations` returns `None` when no pronunciation group is
present. -/
structure Entry where
  word : String
  variant : Option Int
  senses : List Sense
  pronounciations : Option (List Pronounciation)
  phrases : List DefItem
  origin : Option String
  derivatives : List String
deriving DecidableEq, Repr

/-- `DictionaryDefinition` dataclass: the raw record yielded by the
container reader. -/
structure DictionaryDefinition where
  title : String
  entry_str : String
  parsed_entry : Node

/- ===================== Container reader ===================== -/

/-- `f.read(n)` at position `pos` of a regular file: up to `n` bytes. -/
def pyReadBytes (file : List Nat) (pos n : Nat) : List Nat :=
  (file.drop pos).take n

/-- `unpack("i", b)`: little-endian signed 32-bit decode;
`struct.error` unless exactly 4 bytes are supplied. -/
def unpackI32 (b : List Nat) : Except PyErr Int :=
  match b with
  | [b0, b1, b2, b3] =>
      let v : Nat := (b0 % 256) + 256 * (b1 % 256) + 65536 * (b2 % 256) + 16777216 * (b3 % 256)
      .ok (if v < 2 ^ 31 then (v : Int) else (v : Int) - 2 ^ 32)
  | _ => .error (.structErr "unpack requires a buffer of 4 bytes")

/-- One iteration of the chunk loop body at position `pos`
(`sz = unpack("i", f.read(4)); buf = f.read(sz)`): returns the raw chunk
bytes together with the position after both reads.  A negative size
makes `f.read` consume the remainder of the file. -/
def readChunkAt (file : List Nat) (pos : Nat) : Except PyErr (List Nat × Nat) :=
  let hdr := pyReadBytes file pos 4
  match unpackI32 hdr with
  | .error e => .error e
  | .ok sz =>
      let pos1 := pos + hdr.length
      let body := if sz < 0 then file.drop pos1 else pyReadBytes file pos1 sz.toNat
      .ok (body, pos1 + body.length)

/-- The `while f.tell() < limit` loop of `gen_from_apple_dictionary`,
collecting for each chunk the decompression input `f.read(sz)[8:]`
(zlib itself is an external codec and is not modelled).  The loop
terminates because each successful chunk read advances the position. -/
def scanChunks (file : List Nat) (limit : Int) (pos : Nat) :
    Except PyErr (List (List Nat)) :=
  if h : (pos : Int) < limit then
    match hc : readChunkAt file pos with
    | .error e => .error e
    | .ok (body, pos2) =>
        match scanChunks file limit pos2 with
        | .error e => .error e
        | .ok rest => .ok (body.drop 8 :: rest)
  else .ok []
termination_by (limit - pos).toNat
decreasing_by
  have hlt : pos < pos2 := by
    unfold readChunkAt at hc
    unfold unpackI32 at hc
    rcases hh : pyReadBytes file pos 4 with _ | ⟨b0, _ | ⟨b1, _ | ⟨b2, _ | ⟨b3, _ | _⟩⟩⟩⟩ <;>
      rw [hh] at hc <;> simp_all <;> omega
  omega

/-- `gen_from_apple_dictionary` up to zlib decompression: seek `0x40`,
read the 4-byte signed `L`, set `limit = 0x40 + L`, seek `0x60`, and run
the chunk loop, producing the per-chunk compressed payloads (each chunk's
bytes with its first 8 bytes discarded). -/
def appleDictChunks (file : List Nat) : Except PyErr (List (List Nat)) :=
  match unpackI32 (pyReadBytes file 0x40 4) with
  | .error e => .error e
  | .ok l => scanChunks file (0x40 + l) 0x60

/-- Modelled from the spec: the same reader, but with the end-of-table
limit left as a parameter `limitOf` applied to the header integer `L`.
The claim's reading takes `limitOf L = 0x40 + 4 + L`; the source computes
`0x40 + L`. -/
def specChunkReader (limitOf : Int → Int) (file : List Nat) :
    Except PyErr (List (List Nat)) :=
  match unpackI32 (pyReadBytes file 0x40 4) with
  | .error e => .error e
  | .ok l => scanChunks file (limitOf l) 0x60

/-- Shortest capture of `(.*?)"`: characters up to the next `"`, failing
at end of input or at a newline (`.` does not match a newline). -/
def titleCapture : List Char → Option (List Char)
  | [] => none
  | '"' :: _ => some []
  | '\n' :: _ => none
  | c :: rest => (titleCapture rest).map (c :: ·)

/-- Match a literal marker at the head of the input, returning the rest. -/
def dropMarker : List Char → List Char → Option (List Char)
  | [], rest => some rest
  | m :: ms, c :: rest => if c = m then dropMarker ms rest else none
  | _ :: _, [] => none

/-- Attempt to match the regex `d:title="(.*?)"` at the head of `cs`:
the literal marker followed by a shortest capture up to the next `"`. -/
def titleMatchAt (cs : List Char) : Option String :=
  match dropMarker "d:title=\"".toList cs with
  | none => none
  | some rest => (titleCapture rest).map String.mk

/-- `re.search('d:title="(.*?)"', entry)`: the capture of the leftmost
position at which the whole pattern matches, `none` when no position
matches. -/
def searchTitle : List Char → Option String
  | [] => none
  | c :: cs =>
      match titleMatchAt (c :: cs) with
      | some t => some t
      | none => searchTitle cs

/-- Title extraction from a fragment string. -/
def extractTitle (frag : String) : Option String :=
  searchTitle frag.toList

/-- Per-fragment step of `gen_from_apple_dictionary` (lines 104-118),
parameterised by the external markup parser `soupParse`
(`bs4.BeautifulSoup`): extract the declared title (the failed
`re.search(...).group(1)` on a fragment without one raises
`AttributeError`), render title and body to plain text, skip the
fragment (`.ok none`) when either rendering is empty, and otherwise
yield the `DictionaryDefinition`. -/
def processFragment (soupParse : String → Node) (frag : String) :
    Except PyErr (Option DictionaryDefinition) :=
  match extractTitle frag with
  | none => .error (.attrErr "NoneType object has no attribute group")
  | some rawTitle =>
      let titleSoup := soupParse rawTitle
      let entrySoup := soupParse frag
      let title := titleSoup.getText
      let entryText := entrySoup.getText
      if title = "" ∨ entryText = "" then .ok none
      else .ok (some ⟨title, entryText, entrySoup⟩)

/-- The sequence of records yielded for a list of matched fragments:
skipped fragments contribute nothing, errors abort the generator. -/
def processFragments (soupParse : String → Node) :
    List String → Except PyErr (List DictionaryDefinition)
  | [] => .ok []
  | f :: fs =>
      match processFragment soupParse f with
      | .error e => .error e
      | .ok r =>
          match processFragments soupParse fs with
          | .error e => .error e
          | .ok rest =>
              match r with
              | none => .ok rest
              | some d => .ok (d :: rest)

/- ===================== Entry grammar parser ===================== -/

/-- The comprehension `[Pronounciation(text=p.get_text(), type=p["d:pr"])
for p in pronounciations]`; a missing `d:pr` attribute raises `KeyError`. -/
def buildPronounciations : List Node → Except PyErr (List Pronounciation)
  | [] => .ok []
  | p :: rest => do
      let ty ← p.getAttr "d:pr"
      let tail ← buildPronounciations rest
      .ok (⟨p.getText, ty⟩ :: tail)

/-- `parse_pronounciations`: locate the enclosure by class `prx`, else
`pr`; `None` when absent or blank; otherwise require at least one `ph`
span and read each span's text and `d:pr` attribute. -/
def parse_pronounciations (n : Node) : Except PyErr (Option (List Pronounciation)) := do
  let prx ← find_at_most_one n (isSpanClass "prx") true
  let encl ← match prx with
    | some e => pure (some e)
    | none => find_at_most_one n (isSpanClass "pr") true
  match encl with
  | none => return none
  | some e =>
      if e.getText.pyStrip = "" then return none
      else
        match e.findAll (isSpanClass "ph") with
        | [] => throw (.parseAssumption "No pronounciations found")
        | ps => some <$> buildPronounciations ps

mutual
/-- Matches of `find_all("span", class_="gg")` (strict descendants, in
document order) that have no `span` ancestor of class `msDict`; `anc`
records whether the node itself or an ancestor above it is such a span,
since `find_parents` includes every ancestor of the match. -/
def ggOutsideMsDict (anc : Bool) : Node → List Node
  | .text _ => []
  | .elem _ _ _ cs => ggOutsideMsDictList anc cs

def ggOutsideMsDictList (anc : Bool) : List Node → List Node
  | [] => []
  | c :: cs =>
      (if isSpanClass "gg" c && !anc then [c] else [])
        ++ ggOutsideMsDict (anc || isSpanClass "msDict" c) c
        ++ ggOutsideMsDictList anc cs
end

/-- Lines 140-144: the global part-of-speech modifier of
`parse_sense_definitions` — trimmed text of the first `gg` span not
nested inside an `msDict` span, `None` when there is none. -/
def globalPosModifier (n : Node) : Option String :=
  match ggOutsideMsDict (isSpanClass "msDict" n) n with
  | [] => none
  | e :: _ => some e.getText.pyStrip

/-- The `local_pos_modifier or global_pos_modifier` Python expression:
an absent local span or a blank local text falls back to the global
modifier. -/
def posModOr (l g : Option String) : Option String :=
  match l with
  | some s => if s ≠ "" then some s else g
  | none => g

/-- Loop body of `parse_sense_definitions` (lines 147-178) for one
`msDict` sense-entry span. -/
def parseMsDictSpan (globalMod : Option String) (entry_span : Node) :
    Except PyErr DefItem :=
  let definition_spans := entry_span.findAll (isSpanClass "df")
  if definition_spans.length > 1 then
    .error (.parseAssumption "Too many definitions for word!")
  else
    match definition_spans with
    | definition_span :: _ => do
        let example_spans := entry_span.findAll (isSpanClass "ex")
        let topic_span ← find_at_most_one entry_span (isSpanClass "lg") true
        let local_span := entry_span.childNodes.find? (isSpanClass "gg")
        let local_mod := local_span.map (fun s => s.getText.pyStrip)
        let definition := definition_span.getText.pyStrip
        let examples := example_spans.map (fun e => exampleClean e.getText)
        let topic := topic_span.map (fun s => s.getText.pyStrip)
        let date_spans ← find_at_most_one definition_span (isSpanClass "dg") true
        let date := date_spans.map (fun s => s.getText.pyStrip)
        .ok (.definition
          { pos_modifier := posModOr local_mod globalMod
            definition := definition
            examples := examples
            topic := topic
            date := date })
    | [] => do
        let xrg ← find_exactly_one entry_span (isSpanClass "xrg") true
        let referenced_term ← find_exactly_one xrg (isSpanClass "xr") true
        .ok (.reference ⟨globalMod, referenced_term.getText.pyStrip⟩)

/-- The `for entry_span in entry_spans` loop collecting definitions in
document order. -/
def parseMsDictSpans (globalMod : Option String) :
    List Node → Except PyErr (List DefItem)
  | [] => .ok []
  | e :: es =>
      match parseMsDictSpan globalMod e with
      | .error err => .error err
      | .ok d =>
          match parseMsDictSpans globalMod es with
          | .error err => .error err
          | .ok rest => .ok (d :: rest)

/-- `parse_sense_definitions` (lines 139-179). -/
def parse_sense_definitions (n : Node) : Except PyErr (List DefItem) := do
  let globalMod := globalPosModifier n
  let entry_spans ← find_at_least_one n (isSpanClass "msDict") true
  parseMsDictSpans globalMod entry_spans

/-- The loop over direct children in the `se2` branch of `parse_sense`
(lines 194-202): children whose class set meets
`{tg_pos, posg, x_xdh}` are skipped, blank children are skipped, `se2`
children are parsed (whole result lists appended), anything else is a
structural violation.  `c["class"]` raises on text nodes and
attribute-less elements before any other test. -/
def collectSe2 : List Node → Except PyErr (List (List DefItem))
  | [] => .ok []
  | c :: cs => do
      let cls ← c.classAttr
      if cls.any (fun x => x = "tg_pos" || x = "posg" || x = "x_xdh") then
        collectSe2 cs
      else if c.getText.pyStrip = "" then
        collectSe2 cs
      else if cls.contains "se2" then do
        let d ← parse_sense_definitions c
        let rest ← collectSe2 cs
        .ok (d :: rest)
      else
        .error (.parseAssumption "WEIRD TAG")

/-- `parse_sense` (lines 182-208). -/
def parse_sense (n : Node) : Except PyErr Sense := do
  let pos_spans := n.findAll (isSpanClass "tg_pos")
  let pos : Option String ←
    if pos_spans.length > 1 then
      pure (some (String.intercalate " " (pos_spans.map (fun e => e.getText.pyStrip))))
    else
      match pos_spans with
      | [] => do
          let pos_span ← find_at_most_one n (isSpanClass "posg") true
          pure (pos_span.map (fun s => s.getText.pyStrip))
      | p :: _ => pure (some p.getText.pyStrip)
  let sense_definitions : SenseDefs ←
    match n.findAll (isSpanClass "se2") with
    | _ :: _ => SenseDefs.nested <$> collectSe2 n.childNodes
    | [] => SenseDefs.flat <$> parse_sense_definitions n
  if sense_definitions.isEmptyList then
    throw (.parseAssumption "No sense definitions!")
  else
    return ⟨pos, sense_definitions⟩

/-- `parse_derivatives` (lines 211-213). -/
def parse_derivatives (n : Node) : Except PyErr (List String) := do
  let words ← find_at_least_one n (isSpanClass "l") true
  .ok (words.map (fun e => e.getText.pyStrip))

/-- `parse_origin` (lines 216-223): the direct `tg_etym` label must read
exactly `ORIGIN`; the origin text is the trimmed text of the unique
`x_xo1` span. -/
def parse_origin (n : Node) : Except PyErr String := do
  let etym_type ← find_exactly_one n (isSpanClass "tg_etym") false
  if etym_type.getText.pyStrip ≠ "ORIGIN" then
    throw (.parseAssumption "Unexpected etym type")
  else do
    let origin_span ← find_exactly_one n (isSpanClass "x_xo1") true
    .ok origin_span.getText.pyStrip

/-- The sense-collection loop of `parse` (lines 243-248) over the direct
children of the definition group: `se1` children are parsed as senses,
other children with non-empty trimmed text are a structural violation,
blank ones are skipped.  As in `collectSe2`, `c["class"]` raises on
text nodes and attribute-less elements. -/
def collectSenses : List Node → Except PyErr (List Sense)
  | [] => .ok []
  | c :: cs => do
      let cls ← c.classAttr
      if cls.contains "se1" then do
        let s ← parse_sense c
        let rest ← collectSenses cs
        .ok (s :: rest)
      else if c.getText.pyStrip ≠ "" then
        .error (.parseAssumption "Weird tag found in definition")
      else
        collectSenses cs

/-- Whether the sense-collection loop counts a direct child as a sense
group: its class attribute is readable and contains `se1`. -/
def isSe1Child (c : Node) : Bool :=
  match c.classAttr with
  | .ok cls => cls.contains "se1"
  | .error _ => false

/-- The trailing-sections loop of `parse` (lines 255-267) over the
fragment root's direct children, carried state
`(phrases, origin, derivatives)`.  The comparisons with the consumed
head and definition groups use bs4 structural equality. -/
def trailingLoop (head_entry defn_entry : Node) :
    List Node → List DefItem → Option String → List String →
    Except PyErr (List DefItem × Option String × List String)
  | [], ph, og, dv => .ok (ph, og, dv)
  | c :: cs, ph, og, dv =>
      if Node.beq c head_entry || Node.beq c defn_entry then
        trailingLoop head_entry defn_entry cs ph og dv
      else
        match c.classAttr with
        | .error e => .error e
        | .ok cls =>
            if cls.contains "t_phrases" then
              match parse_sense_definitions c with
              | .error e => .error e
              | .ok ph2 => trailingLoop head_entry defn_entry cs ph2 og dv
            else if cls.contains "t_derivatives" then
              match parse_derivatives c with
              | .error e => .error e
              | .ok dv2 => trailingLoop head_entry defn_entry cs ph og dv2
            else if cls.contains "etym" then
              match parse_origin c with
              | .error e => .error e
              | .ok o => trailingLoop head_entry defn_entry cs ph (some o) dv
            else
              .error (.parseAssumption "Weird entry found")

/-- The direct plain-text runs of a node: the `NavigableString` elements
of `head_word_span.contents`. -/
def directTextRuns (n : Node) : List String :=
  n.childNodes.filterMap (fun c =>
    match c with
    | .text s => some s
    | .elem _ _ _ _ => none)

/-- Line 232: `" ".join([t.strip() for t in contents if NavigableString]).strip()`. -/
def wordOf (hw : Node) : String :=
  (String.intercalate " " ((directTextRuns hw).map String.pyStrip)).pyStrip

/-- Modelled from the spec: the claim reads the word as "the
concatenation of only the direct plain-text runs" of the headword span,
i.e. the runs joined with nothing inserted and nothing trimmed. -/
def specWordOf (hw : Node) : String :=
  String.join (directTextRuns hw)

/-- Lines 234-235: the variant sub-span via `find_at_most_one` on class
`tg_hw`, parsed with `int` when present. -/
def variantStep (hw : Node) : Except PyErr (Option Int) := do
  let variant_span ← find_at_most_one hw (isSpanClass "tg_hw") true
  match variant_span with
  | some v => (some ·) <$> pyInt v.getText
  | none => pure none

/-- `AppleDictParser.parse` (lines 226-278). -/
def parse (parsed_entry : Node) : Except PyErr Entry := do
  let entry ← find_exactly_one parsed_entry (isTag "d:entry") true
  let head_entry ← find_exactly_one entry (isSpanClass "hg") true
  let defn_entry ← find_exactly_one entry (isSpanClass "sg") true
  let _head_word_span ← find_exactly_one head_entry (isSpanClass "hw") true
  let word := wordOf _head_word_span
  let variant ← variantStep _head_word_span
  let pronounciations ← parse_pronounciations head_entry
  match defn_entry.findAll (isSpanClass "se1") with
  | [] => throw (.parseAssumption "No senses found!")
  | _ :: _ => do
      let senses ← collectSenses defn_entry.childNodes
      let (phrases, origin, derivatives) ←
        trailingLoop head_entry defn_entry entry.childNodes [] none []
      return { word := word
               variant := variant
               senses := senses
               pronounciations := pronounciations
               phrases := phrases
               origin := origin
               derivatives := derivatives }

/-- Modelled from the spec: the claim's example cleanup — "the trimmed
text ... with a single trailing colon stripped if present". -/
def specExampleClean (s : String) : String :=
  match s.pyStrip.toList.reverse with
  | ':' :: rest => String.mk rest.reverse
  | _ => s.pyStrip

/- ===================== Concrete example inputs ===================== -/

/-- Variant-marker sub-span of text `2` nested in the headword span. -/
def tgHw : Node := .elem "span" (some ["tg_hw"]) [] [.text "2"]

/-- Headword span with two direct text runs around the variant marker. -/
def exHw : Node := .elem "span" (some ["hw"]) [] [.text "frob ", tgHw, .text " nob"]

/-- Date span nested inside the definition-text span. -/
def dg1 : Node := .elem "span" (some ["dg"]) [] [.text "1882"]

/-- Definition-text span. -/
def df1 : Node := .elem "span" (some ["df"]) [] [.text "to frob ", dg1]

/-- First example span: trailing colon after trimming. -/
def exSpan1 : Node := .elem "span" (some ["ex"]) [] [.text " he frobbed it: "]

/-- Second example span: two trailing colons. -/
def exSpan2 : Node := .elem "span" (some ["ex"]) [] [.text "fast::"]

/-- A local modifier span whose trimmed text is empty. -/
def ggLocalEmpty : Node := .elem "span" (some ["gg"]) [] [.text "   "]

/-- Sense-entry with one definition, two examples and a blank local
modifier. -/
def msDict1 : Node := .elem "span" (some ["msDict"]) [] [df1, exSpan1, exSpan2, ggLocalEmpty]

/-- Cross-reference term span. -/
def xrSpan : Node := .elem "span" (some ["xr"]) [] [.text " FROB "]

/-- Cross-reference group span. -/
def xrgSpan : Node := .elem "span" (some ["xrg"]) [] [.text "see ", xrSpan]

/-- Sense-entry with zero definition-text spans: a cross-reference. -/
def msDict2 : Node := .elem "span" (some ["msDict"]) [] [xrgSpan]

/-- A second definition-text span. -/
def df2 : Node := .elem "span" (some ["df"]) [] [.text "x"]

/-- A non-blank local modifier span. -/
def ggLocal2 : Node := .elem "span" (some ["gg"]) [] [.text " dated "]

/-- Sense-entry with one definition and a non-blank local modifier. -/
def msDict3 : Node := .elem "span" (some ["msDict"]) [] [df2, ggLocal2]

/-- Part-of-speech group span. -/
def posgSpan : Node := .elem "span" (some ["posg"]) [] [.text "noun"]

/-- The global modifier span (not inside any sense-entry). -/
def ggGlobal : Node := .elem "span" (some ["gg"]) [] [.text " chiefly "]

/-- A sense group with three sense-entries. -/
def exSe1 : Node := .elem "span" (some ["se1"]) [] [posgSpan, ggGlobal, msDict1, msDict2, msDict3]

/-- Head group. -/
def exHg : Node := .elem "span" (some ["hg"]) [] [exHw]

/-- Definition group. -/
def exSg : Node := .elem "span" (some ["sg"]) [] [exSe1]

/-- The fragment root element. -/
def exDEntry : Node := .elem "d:entry" none [] [exHg, exSg]

/-- A complete well-formed parsed fragment. -/
def exRoot1 : Node := .elem "[document]" none [] [exDEntry]

/-- The items `parse_sense_definitions` produces for `exSe1`. -/
def exItems : List DefItem :=
  [.definition ⟨some "chiefly", "to frob 1882", ["he frobbed it", "fast"], none, some "1882"⟩,
   .reference ⟨some "chiefly", "FROB"⟩,
   .definition ⟨some "dated", "x", [], none, none⟩]

/-- The entry `parse` produces for `exRoot1`. -/
def exEntry1 : Entry :=
  { word := "frob nob"
    variant := some 2
    senses := [⟨some "noun", .flat exItems⟩]
    pronounciations := none
    phrases := []
    origin := none
    derivatives := [] }

/-- A headword span with a single text run. -/
def c1Hw : Node := .elem "span" (some ["hw"]) [] [.text "foo"]

/-- Head group for the zero-senses input. -/
def c1Hg : Node := .elem "span" (some ["hg"]) [] [c1Hw]

/-- An empty sense group span. -/
def c1Se1 : Node := .elem "span" (some ["se1"]) [] []

/-- A blank non-sense child wrapping the nested sense group. -/
def c1Zz : Node := .elem "span" (some ["zz"]) [] [c1Se1]

/-- A definition group whose only `se1` span is nested, not direct. -/
def c1Sg : Node := .elem "span" (some ["sg"]) [] [c1Zz]

/-- Fragment root for the zero-senses input. -/
def c1DEntry : Node := .elem "d:entry" none [] [c1Hg, c1Sg]

/-- Parsed fragment whose definition group has a sense group only at
nesting depth two, inside a blank child. -/
def c1Root : Node := .elem "[document]" none [] [c1DEntry]

/-- The zero-senses entry `parse` produces for `c1Root`. -/
def c1Entry : Entry := ⟨"foo", none, [], none, [], none, []⟩

/-- An attribute-less element child with non-empty text. -/
def c8Bad : Node := .elem "span" none [] [.text "junk"]

/-- A definition group containing a proper sense group and then the
attribute-less child. -/
def c8Sg : Node := .elem "span" (some ["sg"]) [] [.elem "span" (some ["se1"]) [] [msDict1], c8Bad]

/-- Fragment root for the attribute-less-child input. -/
def c8DEntry : Node := .elem "d:entry" none [] [c1Hg, c8Sg]

/-- Parsed fragment for the attribute-less-child input. -/
def c8Root : Node := .elem "[document]" none [] [c8DEntry]

/-- A container file: `L = 32` at offset `0x40` (so the source's limit
`0x40 + L` is exactly `0x60`, the first chunk offset), followed by a
zero-size chunk record at `0x60`. -/
def exFile : List Nat :=
  List.replicate 64 0 ++ [32, 0, 0, 0] ++ List.replicate 28 0 ++ [0, 0, 0, 0]

/- ===================== Helper lemmas ===================== -/

theorem exBind_ok {α β : Type} {x : Except PyErr α} {f : α → Except PyErr β} {b : β} :
    x >>= f = .ok b ↔ ∃ a, x = .ok a ∧ f a = .ok b := by
  cases x <;> simp [Bind.bind, Except.bind]

theorem collectSenses_cons (c : Node) (cs : List Node) :
    collectSenses (c :: cs) = (do
      let cls ← c.classAttr
      if cls.contains "se1" then do
        let s ← parse_sense c
        let rest ← collectSenses cs
        Except.ok (s :: rest)
      else if c.getText.pyStrip ≠ "" then
        Except.error (.parseAssumption "Weird tag found in definition")
      else
        collectSenses cs) := rfl

/-- Indexing a successful `parseMsDictSpans` run. -/
theorem parseMsDictSpans_get {g : Option String} {l : List Node} {items : List DefItem}
    (h : parseMsDictSpans g l = .ok items) {i : Nat} {es : Node} (hes : l.get? i = some es) :
    ∃ d, parseMsDictSpan g es = .ok d ∧ items.get? i = some d := by
  induction l generalizing items i with
  | nil => simp at hes
  | cons e es' ih =>
      unfold parseMsDictSpans at h
      cases hd : parseMsDictSpan g e with
      | error err => rw [hd] at h; simp at h
      | ok d =>
          rw [hd] at h
          cases hrest : parseMsDictSpans g es' with
          | error err => rw [hrest] at h; simp at h
          | ok rest =>
              rw [hrest] at h
              simp only at h
              cases h
              cases i with
              | zero => simp at hes; subst hes; exact ⟨d, hd, rfl⟩
              | succ j => exact ih hrest hes

/-- If any sense-entry span fails, the whole loop fails. -/
theorem parseMsDictSpans_err_at {g : Option String} {l : List Node} {i : Nat} {es : Node}
    (hes : l.get? i = some es) {err : PyErr} (he : parseMsDictSpan g es = .error err) :
    ∀ items, parseMsDictSpans g l ≠ .ok items := by
  intro items h
  obtain ⟨d, hd, _⟩ := parseMsDictSpans_get h hes
  rw [he] at hd
  exact Except.noConfusion hd

theorem collectSenses_length {l : List Node} {ss : List Sense}
    (h : collectSenses l = .ok ss) : ss.length = l.countP isSe1Child := by
  induction l generalizing ss with
  | nil => unfold collectSenses at h; cases h; rfl
  | cons c cs ih =>
      rw [collectSenses_cons, exBind_ok] at h
      obtain ⟨cls, hcls, h⟩ := h
      rw [List.countP_cons]
      by_cases hse : cls.contains "se1" = true
      · rw [hse] at h
        simp only [if_true] at h
        rw [exBind_ok] at h
        obtain ⟨s, hs, h⟩ := h
        rw [exBind_ok] at h
        obtain ⟨rest, hrest, h⟩ := h
        cases h
        have hc : isSe1Child c = true := by unfold isSe1Child; rw [hcls]; exact hse
        simp [hc, ih hrest]
      · rw [if_neg hse] at h
        split at h
        · exact Except.noConfusion h
        · have hc : isSe1Child c = false := by
            unfold isSe1Child; rw [hcls]; simpa using hse
          simp [hc, ih h]

theorem collectSenses_append {pre rest : List Node} {s0 : List Sense}
    (h : collectSenses pre = .ok s0) :
    collectSenses (pre ++ rest) = (fun ss => s0 ++ ss) <$> collectSenses rest := by
  induction pre generalizing s0 with
  | nil =>
      unfold collectSenses at h
      cases h
      rw [List.nil_append]
      cases hr : collectSenses rest <;> simp [Functor.map, Except.map]
  | cons c cs ih =>
      rw [collectSenses_cons, exBind_ok] at h
      obtain ⟨cls, hcls, h⟩ := h
      rw [List.cons_append, collectSenses_cons, hcls]
      simp only [Bind.bind, Except.bind]
      by_cases hse : cls.contains "se1" = true
      · rw [hse] at h ⊢
        simp only [if_true] at h ⊢
        rw [exBind_ok] at h
        obtain ⟨s, hs, h⟩ := h
        rw [exBind_ok] at h
        obtain ⟨r0, hr0, h⟩ := h
        cases h
        rw [hs, ih hr0]
        cases hr : collectSenses rest <;> simp [Functor.map, Except.map, Bind.bind, Except.bind]
      · rw [if_neg hse] at h ⊢
        split at h
        · exact Except.noConfusion h
        · rename_i hblank
          rw [if_neg hblank]
          exact ih h

/-- Inverting the `df`-present branch: a `Definition` item records the
local-or-global modifier and the cleaned example texts. -/
theorem parseMsDictSpan_definition_inv {g : Option String} {es : Node} {D : Definition}
    (h : parseMsDictSpan g es = .ok (.definition D)) :
    D.pos_modifier =
      posModOr ((es.childNodes.find? (isSpanClass "gg")).map (fun s => s.getText.pyStrip)) g ∧
    D.examples = (es.findAll (isSpanClass "ex")).map (fun e => exampleClean e.getText) := by
  unfold parseMsDictSpan at h
  dsimp only at h
  split at h
  · exact Except.noConfusion h
  · split at h
    · rw [exBind_ok] at h
      obtain ⟨topic, htopic, h⟩ := h
      rw [exBind_ok] at h
      obtain ⟨dates, hdates, h⟩ := h
      cases h
      exact ⟨rfl, rfl⟩
    · rw [exBind_ok] at h
      obtain ⟨xrg, hxrg, h⟩ := h
      rw [exBind_ok] at h
      obtain ⟨xr, hxr, h⟩ := h
      cases h

/-- Inverting the `df`-absent branch: the item is a reference built from
the unique `xr` span inside the unique `xrg` span. -/
theorem parseMsDictSpan_reference_inv {g : Option String} {es : Node} {d : DefItem}
    (hdf : es.findAll (isSpanClass "df") = []) (h : parseMsDictSpan g es = .ok d) :
    ∃ xrg xr, find_exactly_one es (isSpanClass "xrg") true = .ok xrg ∧
      find_exactly_one xrg (isSpanClass "xr") true = .ok xr ∧
      d = .reference ⟨g, xr.getText.pyStrip⟩ := by
  unfold parseMsDictSpan at h
  dsimp only at h
  rw [hdf] at h
  norm_num at h
  rw [exBind_ok] at h
  obtain ⟨xrg, hxrg, h⟩ := h
  rw [exBind_ok] at h
  obtain ⟨xr, hxr, h⟩ := h
  cases h
  exact ⟨xrg, xr, hxrg, hxr, rfl⟩

/-- More than one `df` span in a sense-entry fails immediately. -/
theorem parseMsDictSpan_too_many {g : Option String} {es : Node}
    (hdf : 1 < (es.findAll (isSpanClass "df")).length) :
    parseMsDictSpan g es = .error (.parseAssumption "Too many definitions for word!") := by
  unfold parseMsDictSpan
  dsimp only
  rw [if_pos hdf]

/-- A successful `parse_sense_definitions` run is the span-loop run on
the spans found by `find_at_least_one`, with the global modifier. -/
theorem parse_sense_definitions_inv {n : Node} {items : List DefItem}
    (h : parse_sense_definitions n = .ok items) {spans : List Node}
    (hspans : find_at_least_one n (isSpanClass "msDict") true = .ok spans) :
    parseMsDictSpans (globalPosModifier n) spans = .ok items := by
  unfold parse_sense_definitions at h
  rw [exBind_ok] at h
  obtain ⟨spans2, hs2, h⟩ := h
  rw [hspans] at hs2
  cases hs2
  exact h

theorem processFragments_cons (sp : String → Node) (f : String) (fs : List String) :
    processFragments sp (f :: fs) =
      (match processFragment sp f with
        | .error e => .error e
        | .ok r =>
            match processFragments sp fs with
            | .error e => .error e
            | .ok rest =>
                match r with
                | none => .ok rest
                | some d => .ok (d :: rest)) := rfl

/-- A fragment the reader skips contributes nothing to the produced
sequence. -/
theorem processFragments_skip {sp : String → Node} {f : String}
    (hf : processFragment sp f = .ok none) (pre post : List String) :
    processFragments sp (pre ++ f :: post) = processFragments sp (pre ++ post) := by
  induction pre with
  | nil =>
      rw [List.nil_append, List.nil_append, processFragments_cons, hf]
      cases h : processFragments sp post <;> rfl
  | cons p ps ih =>
      rw [List.cons_append, List.cons_append, processFragments_cons, processFragments_cons, ih]

/-- Full inversion of a successful `parse` run: the intermediate queries
all succeeded and the entry is assembled from their results. -/
theorem parse_ok_parts {n : Node} {e : Entry} (h : parse n = .ok e) :
    ∃ entry head_entry defn_entry hw v pr ss tl,
      find_exactly_one n (isTag "d:entry") true = .ok entry ∧
      find_exactly_one entry (isSpanClass "hg") true = .ok head_entry ∧
      find_exactly_one entry (isSpanClass "sg") true = .ok defn_entry ∧
      find_exactly_one head_entry (isSpanClass "hw") true = .ok hw ∧
      variantStep hw = .ok v ∧
      parse_pronounciations head_entry = .ok pr ∧
      defn_entry.findAll (isSpanClass "se1") ≠ [] ∧
      collectSenses defn_entry.childNodes = .ok ss ∧
      trailingLoop head_entry defn_entry entry.childNodes [] none [] = .ok tl ∧
      e = ⟨wordOf hw, v, ss, pr, tl.1, tl.2.1, tl.2.2⟩ := by
  unfold parse at h
  rw [exBind_ok] at h
  obtain ⟨entry, h1, h⟩ := h
  rw [exBind_ok] at h
  obtain ⟨head, h2, h⟩ := h
  rw [exBind_ok] at h
  obtain ⟨defn, h3, h⟩ := h
  rw [exBind_ok] at h
  obtain ⟨hw, h4, h⟩ := h
  rw [exBind_ok] at h
  obtain ⟨v, h5, h⟩ := h
  rw [exBind_ok] at h
  obtain ⟨pr, h6, h⟩ := h
  split at h
  · simp [throw, throwThe, MonadExceptOf.throw] at h
  · rename_i l ls hne
    rw [exBind_ok] at h
    obtain ⟨ss, h7, h⟩ := h
    rw [exBind_ok] at h
    obtain ⟨tl, h8, h⟩ := h
    obtain ⟨ph, og, dv⟩ := tl
    simp only [pure, Except.pure, Except.ok.injEq] at h
    refine ⟨entry, head, defn, hw, v, pr, ss, (ph, og, dv),
      h1, h2, h3, h4, h5, h6, ?_, h7, h8, h.symm⟩
    rw [hne]
    simp

/-- C1 (counterexample): `parse` returns an entry with an empty senses
list on `c1Root`, whose definition group has an `se1` descendant but no
direct `se1` child. -/
theorem claim_C1_counterexample : parse c1Root = .ok c1Entry ∧ c1Entry.senses = [] :=
  ⟨rfl, rfl⟩

/-- C1 (amended): when `parse` succeeds, the definition group has at
least one `se1` descendant, and the entry has exactly one sense per
direct `se1` child of the definition group. -/
theorem claim_C1_amended {n : Node} {e : Entry} {entry defn : Node}
    (h : parse n = .ok e)
    (hentry : find_exactly_one n (isTag "d:entry") true = .ok entry)
    (hdefn : find_exactly_one entry (isSpanClass "sg") true = .ok defn) :
    defn.findAll (isSpanClass "se1") ≠ [] ∧
    e.senses.length = defn.childNodes.countP isSe1Child := by
  obtain ⟨e2, h2, d2, hw, v, pr, ss, tl, h1, hh2, h3, h4, h5, h6, h7, h8, h9, h10⟩ :=
    parse_ok_parts h
  rw [hentry] at h1
  cases h1
  rw [hdefn] at h3
  cases h3
  subst h10
  exact ⟨h7, collectSenses_length h8⟩

/-- C1 (witness): the amended statement instantiated at `exRoot1`. -/
theorem claim_C1_witness :
    exSg.findAll (isSpanClass "se1") ≠ [] ∧
    exEntry1.senses.length = exSg.childNodes.countP isSe1Child :=
  claim_C1_amended (n := exRoot1) (by rfl) (by rfl) (by rfl)

/-- One-step unfolding of the chunk loop below the limit. -/
theorem scanChunks_step (file : List Nat) (limit : Int) (pos : Nat)
    (h : (pos : Int) < limit) :
    scanChunks file limit pos =
      (match readChunkAt file pos with
        | .error e => .error e
        | .ok (body, pos2) =>
            match scanChunks file limit pos2 with
            | .error e => .error e
            | .ok rest => .ok (body.drop 8 :: rest)) := by
  rw [scanChunks, dif_pos h]
  rcases hX : readChunkAt file pos with e | ⟨body, pos2⟩ <;> rfl

/-- The chunk loop stops at or past the limit. -/
theorem scanChunks_stop (file : List Nat) (limit : Int) (pos : Nat)
    (h : ¬ (pos : Int) < limit) : scanChunks file limit pos = .ok [] := by
  rw [scanChunks, dif_neg h]

/-- C2 (amended): the reader equals the spec-modelled reader whose
chunk-table limit is `header_offset + L` (not `header_offset + 4 + L`),
and each loop step behaves as described: before the limit it reads a
4-byte signed size, reads that many bytes, drops the first 8, and emits
the remainder for decompression; at or past the limit it stops. -/
theorem claim_C2_amended :
    (∀ file, appleDictChunks file = specChunkReader (fun l => 0x40 + l) file) ∧
    (∀ (file : List Nat) (limit : Int) (pos : Nat), ((pos : Int) < limit →
        scanChunks file limit pos =
          (match readChunkAt file pos with
            | .error e => .error e
            | .ok (body, pos2) =>
                match scanChunks file limit pos2 with
                | .error e => .error e
                | .ok rest => .ok (body.drop 8 :: rest))) ∧
      (¬ (pos : Int) < limit → scanChunks file limit pos = .ok [])) := by
  exact ⟨fun file => rfl, fun file limit pos =>
    ⟨scanChunks_step file limit pos, scanChunks_stop file limit pos⟩⟩

/-- C2 (counterexample): on a file whose header integer is `L = 32`, the
source reader stops exactly at `0x40 + L = 0x60` and reads no chunk,
while the claimed limit `0x40 + 4 + L` would admit one more chunk. -/
theorem claim_C2_counterexample :
    appleDictChunks exFile = .ok [] ∧
    specChunkReader (fun l => 0x40 + 4 + l) exFile = .ok [[]] ∧
    ([] : List (List Nat)) ≠ [[]] := by
  refine ⟨?_, ?_, by decide⟩
  · show scanChunks exFile (0x40 + 32) 0x60 = .ok []
    exact scanChunks_stop _ _ _ (by norm_num)
  · show scanChunks exFile (0x40 + 4 + 32) 0x60 = .ok [[]]
    rw [scanChunks_step _ _ _ (by norm_num)]
    rw [show readChunkAt exFile 0x60 = .ok ([], 0x64) from rfl]
    dsimp only
    rw [scanChunks_stop _ _ _ (by norm_num)]
    rfl

/-- C3 (code_bug evaluation): zero matches make `find_at_least_one`
raise `NameError` (the `raise` line names the undefined
`InvalidParseAssumption`), not the parse-assumption error; with matches
present, all of them are returned in document order. -/
theorem claim_C3_eval :
    find_at_least_one c1Se1 (isSpanClass "l") true =
      .error (.nameErr "name InvalidParseAssumption is not defined") ∧
    isParseViolation (find_at_least_one c1Se1 (isSpanClass "l") true) = false ∧
    find_at_least_one exSe1 (isSpanClass "msDict") true = .ok [msDict1, msDict2, msDict3] :=
  ⟨rfl, rfl, rfl⟩

/-- C4 (counterexample): a fragment without a title-attribute match makes
the reader fail with `AttributeError` (calling `.group(1)` on `None`),
not with the parse-assumption error the claim names. -/
theorem claim_C4_counterexample :
    processFragment Node.text "<d:entry nothing>" =
      .error (.attrErr "NoneType object has no attribute group") ∧
    isParseViolation (processFragment Node.text "<d:entry nothing>") = false :=
  ⟨rfl, rfl⟩

/-- C4 (amended): a fragment whose text has no title-attribute match
makes the reader fail — with `AttributeError` — rather than silently
skipping the fragment. -/
theorem claim_C4_amended (sp : String → Node) (frag : String)
    (h : extractTitle frag = none) :
    processFragment sp frag = .error (.attrErr "NoneType object has no attribute group") := by
  unfold processFragment
  rw [h]

/-- C4 (witness): the amended statement at a concrete fragment. -/
theorem claim_C4_witness :
    processFragment Node.text "<d:entry d:title=nope>x" =
      .error (.attrErr "NoneType object has no attribute group") :=
  claim_C4_amended Node.text _ (by rfl)

/-- C5: a sense-entry with zero `df` spans contributes, at its own
position, a `ReferenceDefinition` built from the unique `xr` span of the
unique `xrg` span with the global modifier; one with more than one `df`
span makes the whole sub-parser fail. -/
theorem claim_C5 {n : Node} {spans : List Node} {i : Nat} {es : Node}
    (hspans : find_at_least_one n (isSpanClass "msDict") true = .ok spans)
    (hes : spans.get? i = some es) :
    (es.findAll (isSpanClass "df") = [] →
      ∀ items, parse_sense_definitions n = .ok items →
        ∃ xrg xr, find_exactly_one es (isSpanClass "xrg") true = .ok xrg ∧
          find_exactly_one xrg (isSpanClass "xr") true = .ok xr ∧
          items.get? i = some (.reference ⟨globalPosModifier n, xr.getText.pyStrip⟩)) ∧
    (1 < (es.findAll (isSpanClass "df")).length →
      ∀ items, parse_sense_definitions n ≠ .ok items) := by
  constructor
  · intro hdf items hok
    obtain ⟨d, hd, hi⟩ := parseMsDictSpans_get (parse_sense_definitions_inv hok hspans) hes
    obtain ⟨xrg, xr, hxrg, hxr, hdref⟩ := parseMsDictSpan_reference_inv hdf hd
    subst hdref
    exact ⟨xrg, xr, hxrg, hxr, hi⟩
  · intro hdf items hok
    exact parseMsDictSpans_err_at hes (parseMsDictSpan_too_many hdf) items
      (parse_sense_definitions_inv hok hspans)

/-- C5 (witness): instantiated at the cross-reference sense-entry
`msDict2`, the second entry span of `exSe1`. -/
theorem claim_C5_witness :
    (msDict2.findAll (isSpanClass "df") = [] →
      ∀ items, parse_sense_definitions exSe1 = .ok items →
        ∃ xrg xr, find_exactly_one msDict2 (isSpanClass "xrg") true = .ok xrg ∧
          find_exactly_one xrg (isSpanClass "xr") true = .ok xr ∧
          items.get? 1 = some (.reference ⟨globalPosModifier exSe1, xr.getText.pyStrip⟩)) ∧
    (1 < (msDict2.findAll (isSpanClass "df")).length →
      ∀ items, parse_sense_definitions exSe1 ≠ .ok items) :=
  claim_C5 (n := exSe1) (i := 1) (by rfl) (by rfl)

/-- C6 (counterexample): for the example span text `fast::` the source
produces `fast` (all trailing colons and surrounding whitespace are
stripped), while the claim's rule — one trailing colon at most — gives
`fast:`. -/
theorem claim_C6_counterexample :
    parse_sense_definitions exSe1 = .ok exItems ∧
    exItems.get? 0 = some (.definition
      ⟨some "chiefly", "to frob 1882", ["he frobbed it", "fast"], none, some "1882"⟩) ∧
    exSpan2.getText = "fast::" ∧
    exampleClean "fast::" = "fast" ∧
    specExampleClean "fast::" = "fast:" ∧
    ("fast" : String) ≠ "fast:" :=
  ⟨rfl, rfl, rfl, rfl, rfl, by decide⟩

/-- C6 (amended): every `Definition` produced by the definition-list
sub-parser lists, in document order, each example span's text trimmed,
with all leading and trailing colons removed and the result re-trimmed. -/
theorem claim_C6_amended {n : Node} {spans : List Node} {i : Nat} {es : Node}
    {items : List DefItem} {D : Definition}
    (hspans : find_at_least_one n (isSpanClass "msDict") true = .ok spans)
    (hes : spans.get? i = some es)
    (hok : parse_sense_definitions n = .ok items)
    (hit : items.get? i = some (.definition D)) :
    D.examples = (es.findAll (isSpanClass "ex")).map (fun e => exampleClean e.getText) := by
  obtain ⟨d, hd, hi⟩ := parseMsDictSpans_get (parse_sense_definitions_inv hok hspans) hes
  rw [hit] at hi
  cases hi
  exact (parseMsDictSpan_definition_inv hd).2

/-- C6 (witness): the amended statement at the first sense-entry of
`exSe1`. -/
theorem claim_C6_witness :
    (⟨some "chiefly", "to frob 1882", ["he frobbed it", "fast"], none,
      some "1882"⟩ : Definition).examples =
      (msDict1.findAll (isSpanClass "ex")).map (fun e => exampleClean e.getText) :=
  claim_C6_amended (n := exSe1) (i := 0) (by rfl) (by rfl) (by rfl) (by rfl)

/-- C7 (counterexample): the parsed word for `exHw` is `frob nob` —
the trimmed runs joined with single spaces — while the literal
concatenation of the direct plain-text runs is `frob  nob`. -/
theorem claim_C7_counterexample :
    parse exRoot1 = .ok exEntry1 ∧
    exEntry1.word = "frob nob" ∧
    specWordOf exHw = "frob  nob" ∧
    exEntry1.word ≠ specWordOf exHw ∧
    exEntry1.variant = some 2 :=
  ⟨rfl, rfl, rfl, by decide, rfl⟩

/-- C7 (amended): the entry's word is the trimmed single-space join of
the trimmed direct plain-text runs of the headword span (nested tagged
sub-spans excluded), and the variant is the integer parse of the at-most
one `tg_hw` sub-span's text, absent when the sub-span is absent. -/
theorem claim_C7_amended {n : Node} {e : Entry} {entry head hw : Node}
    (h : parse n = .ok e)
    (hentry : find_exactly_one n (isTag "d:entry") true = .ok entry)
    (hhead : find_exactly_one entry (isSpanClass "hg") true = .ok head)
    (hhw : find_exactly_one head (isSpanClass "hw") true = .ok hw) :
    e.word = wordOf hw ∧ variantStep hw = .ok e.variant := by
  obtain ⟨e2, h2, d2, hw2, v, pr, ss, tl, h1, hh2, h3, h4, h5, h6, h7, h8, h9, h10⟩ :=
    parse_ok_parts h
  rw [hentry] at h1
  cases h1
  rw [hhead] at hh2
  cases hh2
  rw [hhw] at h4
  cases h4
  subst h10
  exact ⟨rfl, h5⟩

/-- C7 (witness): the amended statement at `exRoot1`, where the variant
sub-span text `2` yields variant `2` and a word excluding `2`. -/
theorem claim_C7_witness :
    exEntry1.word = wordOf exHw ∧ variantStep exHw = .ok exEntry1.variant :=
  claim_C7_amended (n := exRoot1) (by rfl) (by rfl) (by rfl) (by rfl)

/-- C8 (counterexample): a direct child of the definition group that is
an attribute-less element with non-empty text makes `parse` raise
`KeyError` (from `c["class"]`), not the parse-assumption error the
claim names. -/
theorem claim_C8_counterexample :
    parse c8Root = .error (.keyErr "class") ∧
    isParseViolation (parse c8Root) = false ∧
    c8Bad.getText.pyStrip ≠ "" :=
  ⟨rfl, rfl, by decide⟩

/-- C8 (amended): for direct children whose class attribute is readable,
the sense-collection loop fails with the parse-assumption error on a
non-`se1` child with non-empty trimmed text and skips a blank one;
children without a readable class attribute instead raise the
type/key error surfaced by `c["class"]` before any text test. -/
theorem claim_C8_amended {pre : List Node} {c : Node} {post : List Node}
    {s0 : List Sense} {cls : List String}
    (hpre : collectSenses pre = .ok s0)
    (hcls : c.classAttr = .ok cls) (hse : cls.contains "se1" = false) :
    (c.getText.pyStrip ≠ "" →
       collectSenses (pre ++ c :: post) =
         .error (.parseAssumption "Weird tag found in definition")) ∧
    (c.getText.pyStrip = "" →
       collectSenses (pre ++ c :: post) = collectSenses (pre ++ post)) := by
  constructor
  · intro hne
    rw [collectSenses_append hpre, collectSenses_cons, hcls]
    simp only [Bind.bind, Except.bind]
    rw [if_neg (by simpa using hse), if_pos hne]
    rfl
  · intro hblank
    rw [collectSenses_append hpre, collectSenses_append hpre, collectSenses_cons, hcls]
    simp only [Bind.bind, Except.bind]
    rw [if_neg (by simpa using hse), if_neg (by simp [hblank])]

/-- C8 (witness): the amended statement with the blank non-sense child
`c1Zz` between no predecessors and a real sense group. -/
theorem claim_C8_witness :
    (c1Zz.getText.pyStrip ≠ "" →
       collectSenses ([] ++ c1Zz :: [exSe1]) =
         .error (.parseAssumption "Weird tag found in definition")) ∧
    (c1Zz.getText.pyStrip = "" →
       collectSenses ([] ++ c1Zz :: [exSe1]) = collectSenses ([] ++ [exSe1])) :=
  claim_C8_amended (by rfl) (by rfl) (by rfl)

/-- C9: a fragment with a matched title whose title or body renders to
empty plain text is skipped — the produced sequence is the same as
without the fragment, one element fewer than if it had been yielded —
while a fragment with both renderings non-empty yields its
`DictionaryDefinition`. -/
theorem claim_C9 {q : String → Node} {frag t : String} (pre post : List String)
    (ht : extractTitle frag = some t) :
    (((q t).getText = "" ∨ (q frag).getText = "") →
        processFragment q frag = .ok none ∧
        processFragments q (pre ++ frag :: post) = processFragments q (pre ++ post)) ∧
    ((q t).getText ≠ "" → (q frag).getText ≠ "" →
        processFragment q frag = .ok (some ⟨(q t).getText, (q frag).getText, q frag⟩)) := by
  have hpf : processFragment q frag =
      (if (q t).getText = "" ∨ (q frag).getText = "" then .ok none
       else .ok (some ⟨(q t).getText, (q frag).getText, q frag⟩)) := by
    unfold processFragment
    rw [ht]
  constructor
  · intro hemp
    have h1 : processFragment q frag = .ok none := by rw [hpf, if_pos hemp]
    exact ⟨h1, processFragments_skip h1 pre post⟩
  · intro h1 h2
    rw [hpf, if_neg (by tauto)]

/-- C9 (witness): instantiated with the identity-text markup parser and
a fragment whose declared title is empty, between two good fragments. -/
theorem claim_C9_witness :
    (((Node.text "").getText = "" ∨ (Node.text "<d:entry d:title=\"\">x").getText = "") →
        processFragment Node.text "<d:entry d:title=\"\">x" = .ok none ∧
        processFragments Node.text
            (["<d:entry d:title=\"a\">b"] ++ "<d:entry d:title=\"\">x" :: ["<d:entry d:title=\"c\">d"]) =
          processFragments Node.text (["<d:entry d:title=\"a\">b"] ++ ["<d:entry d:title=\"c\">d"])) ∧
    ((Node.text "").getText ≠ "" → (Node.text "<d:entry d:title=\"\">x").getText ≠ "" →
        processFragment Node.text "<d:entry d:title=\"\">x" =
          .ok (some ⟨(Node.text "").getText, (Node.text "<d:entry d:title=\"\">x").getText,
            Node.text "<d:entry d:title=\"\">x"⟩)) :=
  claim_C9 (q := Node.text) (t := "") ["<d:entry d:title=\"a\">b"] ["<d:entry d:title=\"c\">d"] (by rfl)

/-- C10: for a `Definition`, a present-but-blank direct local modifier
span falls back to the global modifier, and the modifier is `None`
exactly when the local one is absent or blank and there is no global
modifier span. -/
theorem claim_C10 {n : Node} {spans : List Node} {i : Nat} {es : Node}
    {items : List DefItem} {D : Definition}
    (hspans : find_at_least_one n (isSpanClass "msDict") true = .ok spans)
    (hes : spans.get? i = some es)
    (hok : parse_sense_definitions n = .ok items)
    (hit : items.get? i = some (.definition D)) :
    ((es.childNodes.find? (isSpanClass "gg")).map (fun s => s.getText.pyStrip) = some "" →
        D.pos_modifier = globalPosModifier n) ∧
    (D.pos_modifier = none ↔
      (((es.childNodes.find? (isSpanClass "gg")).map (fun s => s.getText.pyStrip) = none ∨
        (es.childNodes.find? (isSpanClass "gg")).map (fun s => s.getText.pyStrip) = some "") ∧
        globalPosModifier n = none)) := by
  obtain ⟨d, hd, hi⟩ := parseMsDictSpans_get (parse_sense_definitions_inv hok hspans) hes
  rw [hit] at hi
  cases hi
  have hpos := (parseMsDictSpan_definition_inv hd).1
  rw [hpos]
  constructor
  · intro h
    rw [h]
    simp [posModOr]
  · rcases hlm : (es.childNodes.find? (isSpanClass "gg")).map (fun s => s.getText.pyStrip)
      with _ | s
    · simp [posModOr, hlm]
    · by_cases hs : s = ""
      · subst hs
        simp [posModOr, hlm]
      · simp [posModOr, hs, hlm]

/-- C10 (witness): instantiated at the first sense-entry of `exSe1`,
whose local modifier span is present with blank text and whose global
modifier is `chiefly`. -/
theorem claim_C10_witness :
    ((msDict1.childNodes.find? (isSpanClass "gg")).map (fun s => s.getText.pyStrip) = some "" →
        (⟨some "chiefly", "to frob 1882", ["he frobbed it", "fast"], none,
          some "1882"⟩ : Definition).pos_modifier = globalPosModifier exSe1) ∧
    ((⟨some "chiefly", "to frob 1882", ["he frobbed it", "fast"], none,
        some "1882"⟩ : Definition).pos_modifier = none ↔
      (((msDict1.childNodes.find? (isSpanClass "gg")).map (fun s => s.getText.pyStrip) = none ∨
        (msDict1.childNodes.find? (isSpanClass "gg")).map (fun s => s.getText.pyStrip) = some "") ∧
        globalPosModifier exSe1 = none)) :=
  claim_C10 (n := exSe1) (i := 0) (by rfl) (by rfl) (by rfl) (by rfl)

/-- C2 (witness): the loop-step characterisation applied at the
counterexample file, below and at the limit. -/
theorem claim_C2_witness :
    scanChunks exFile (0x40 + 4 + 32) 0x60 =
      (match readChunkAt exFile 0x60 with
        | .error e => .error e
        | .ok (body, pos2) =>
            match scanChunks exFile (0x40 + 4 + 32) pos2 with
            | .error e => .error e
            | .ok rest => .ok (body.drop 8 :: rest)) ∧
    scanChunks exFile (0x40 + 32) 0x60 = .ok [] :=
  ⟨(claim_C2_amended.2 exFile (0x40 + 4 + 32) 0x60).1 (by norm_num),
   (claim_C2_amended.2 exFile (0x40 + 32) 0x60).2 (by norm_num)⟩
